import Mathlib

/-!
Verification of the CPF-censoring engine (main.py, src/censor.py,
src/utils.py) against its natural-language specification.

Strings of the Python source are embedded as `List Char`; Python slices
`s[a:b]` become `(List.take b s).drop a`; machine-independent integers are
`Nat`/`Int`; page-coordinate geometry uses `ℚ`; fallible routines return
explicit outcome records.
-/

namespace CpfCensoring

/-- Python `str.lower` on one character, for the character ranges that occur
in these documents: ASCII capitals and the Latin-1 capitals used by
Portuguese text (À..Þ except ×) map to their lowercase forms 32 code points
higher; every other character is unchanged. -/
def pyLowerChar (c : Char) : Char :=
  if 'A' ≤ c ∧ c ≤ 'Z' then Char.ofNat (c.toNat + 32)
  else if 'À' ≤ c ∧ c ≤ 'Þ' ∧ c ≠ '×' then Char.ofNat (c.toNat + 32)
  else c

/-- Python `str.lower` over a whole string. -/
def pyLower (cs : List Char) : List Char := cs.map pyLowerChar

/-- Python substring membership `needle in haystack`. -/
def containsSub (haystack needle : List Char) : Bool :=
  (List.range (haystack.length + 1)).any fun i => needle.isPrefixOf (haystack.drop i)

/-- Extraction of the digit characters of a matched text, in order: embeds
both `re.sub(r'\D', '', cpf_text)` (main.py line 24) and
`"".join(ch for ch in matched_text if ch.isdigit())` (censor.py line 103). -/
def digitsOnly (cs : List Char) : List Char := cs.filter Char.isDigit

/-- Embedding of `mask_cpf_digits` (main.py lines 12-57): keep only the
digits; if there are not exactly 11 of them return the input unchanged;
otherwise censor the first 3 and last 2 digits with X, and, when the input
contains a dot or a hyphen, reformat the censored digit string into the
fixed `###.###.###-##` layout, else return the censored digit string. -/
def mask_cpf_digits (cpf_text : List Char) : List Char :=
  let digits_only := digitsOnly cpf_text
  if digits_only.length ≠ 11 then cpf_text
  else
    let middle_6 := (digits_only.drop 3).take 6
    let censored_digits := 'X' :: 'X' :: 'X' :: middle_6 ++ ['X', 'X']
    if cpf_text.contains '.' || cpf_text.contains '-' then
      censored_digits.take 3 ++ '.' :: (censored_digits.drop 3).take 3
        ++ '.' :: (censored_digits.drop 6).take 3
        ++ '-' :: (censored_digits.drop 9).take 2
    else censored_digits

/-- Helper for the spec-described character walk: substitute each digit
character of the text by the next character of the masked digit sequence,
copying non-digit characters verbatim. -/
def walkSub : List Char → List Char → List Char
  | [], _ => []
  | c :: cs, ms =>
    if c.isDigit then
      match ms with
      | [] => c :: walkSub cs []
      | m :: ms' => m :: walkSub cs ms'
    else c :: walkSub cs ms

/-- Masked display string as section 4.5 of the spec describes it: build it
by walking the original matched text character-by-character, copying
non-digit characters verbatim in their original positions and substituting
digit characters from the computed masked-digit sequence in order. Used
only to compare the spec's description with `mask_cpf_digits`. -/
def maskBySpecWalk (cpf_text : List Char) : List Char :=
  let digits_only := digitsOnly cpf_text
  if digits_only.length ≠ 11 then cpf_text
  else walkSub cpf_text ('X' :: 'X' :: 'X' :: (digits_only.drop 3).take 6 ++ ['X', 'X'])

/-- CPF digit validation exactly as the engine performs it
(censor.py lines 106-108): the candidate's concatenated digit string is
accepted iff it has exactly 11 characters. -/
def cpfDigitAccept (digits : List Char) : Bool := digits.length == 11

/-- Digit validation of a CPF candidate's matched text: extract the digits
and apply `cpfDigitAccept` (censor.py lines 102-108). -/
def cpfValidate (matched_text : List Char) : Bool := cpfDigitAccept (digitsOnly matched_text)

/-- Numeric value of a digit character. -/
def charVal (c : Char) : ℕ := c.toNat - 48

/-- Weighted digit sum `Σ d[i] * (w - i)` used by the CPF check-digit
formulas of the spec. -/
def weightedSum : List ℕ → ℕ → ℕ
  | [], _ => 0
  | d :: ds, w => d * w + weightedSum ds (w - 1)

/-- Check digit from a weighted sum: `11 - (s mod 11)`, clamped to 0 when
the result is at least 10 (spec section 4.2). -/
def checkDigit (s : ℕ) : ℕ :=
  let r := 11 - s % 11
  if 10 ≤ r then 0 else r

/-- True iff the string consists of copies of one single character. -/
def allSameDigit : List Char → Bool
  | [] => true
  | d :: rest => rest.all (· == d)

/-- CPF validity as section 4.2 of the spec states it: exact length 11, not
a string of 11 identical digits, and both check digits computed by the
stated formulas match positions 9 and 10. Present only to compare the
spec's validator with the engine's `cpfDigitAccept`. -/
def is_valid_cpf (ds : List Char) : Bool :=
  ds.length == 11 && !allSameDigit ds &&
    (let vs := ds.map charVal
     checkDigit (weightedSum (vs.take 9) 10) == vs.getD 9 0 &&
     checkDigit (weightedSum (vs.take 10) 11) == vs.getD 10 0)

/-- The four identifier kinds handled by `censor_partial_identifiers_in_pdf`
(censor.py lines 42-47). -/
inductive DocLabel
  | CPF
  | RG
  | Titulo
  | CNH
deriving DecidableEq, Repr

/-- Context keywords that suppress a candidate (censor.py line 50). -/
def ignore_contexts : List (List Char) :=
  ["r$".toList, "cnpj".toList, "id".toList, "c/c".toList, "matrícula:".toList]

/-- Context window of a match (censor.py line 76): the characters
`text[max(0, start-30):start]`, lower-cased. -/
def windowOf (text : List Char) (start : ℕ) : List Char :=
  pyLower ((text.take start).drop (start - 30))

/-- Whitespace removal, embedding `re.sub(r'\s+', '', after_text)`
(censor.py line 93). -/
def stripSpaces (cs : List Char) : List Char := cs.filter fun c => !c.isWhitespace

/-- The anchored pattern `/\d{4}-?\d{2}` of censor.py line 94: a slash, four
digits, an optional hyphen, then two mandatory digits. -/
def cnpjTailMatch : List Char → Bool
  | '/' :: a :: b :: c :: d :: rest =>
    a.isDigit && b.isDigit && c.isDigit && d.isDigit &&
      (match rest with
       | '-' :: e :: f :: _ => e.isDigit && f.isDigit
       | e :: f :: _ => e.isDigit && f.isDigit
       | _ => false)
  | _ => false

/-- The CNPJ-tail condition as the claim words it: the stripped trailing
text begins with a slash followed by 4 digits, with the hyphen and the 2
further digits optional — so a bare `/dddd` already triggers it. Present
only to compare the claim's wording with `cnpjTailMatch`. -/
def claimCnpjTail : List Char → Bool
  | '/' :: a :: b :: c :: d :: _ => a.isDigit && b.isDigit && c.isDigit && d.isDigit
  | _ => false

/-- Candidate filtering, embedding censor.py lines 75-100 for one match:
reject when the 30-character lower-cased window before the match contains
an ignore keyword; reject when the matched text contains a comma or dot
but carries fewer than 10 digits (financial value); for CPF and RG, reject
when the 20 characters after the match, whitespace removed, match
`/\d{4}-?\d{2}` — unless the label is CPF and the window contains "cpf".
`start` and `stop` are the match's offsets in the flattened page text. -/
def candidatePassesFilters (label : DocLabel) (text : List Char) (start stop : ℕ)
    (matched_text : List Char) : Bool :=
  let window := windowOf text start
  if ignore_contexts.any (fun substr => containsSub window substr) then false
  else if (matched_text.contains ',' || matched_text.contains '.')
      && (digitsOnly matched_text).length < 10 then false
  else if (label == DocLabel.CPF || label == DocLabel.RG)
      && cnpjTailMatch (stripSpaces ((text.drop stop).take 20)) then
    if label == DocLabel.CPF && containsSub window ("cpf".toList) then true
    else false
  else true

/-- Page rectangle in page coordinates, as fitz.Rect. -/
structure Rect where
  x0 : ℚ
  y0 : ℚ
  x1 : ℚ
  y1 : ℚ
deriving DecidableEq, Repr

/-- Width of a rectangle (x1 - x0, for the normalized rectangles returned
by page searches). -/
def Rect.width (r : Rect) : ℚ := r.x1 - r.x0

/-- Height of a rectangle (y1 - y0, for normalized rectangles). -/
def Rect.height (r : Rect) : ℚ := r.y1 - r.y0

/-- Containment of rectangles: every bound of the inner rectangle lies
within the outer one. -/
def Rect.insideOf (inner outer : Rect) : Prop :=
  outer.x0 ≤ inner.x0 ∧ inner.x1 ≤ outer.x1 ∧ outer.y0 ≤ inner.y0 ∧ inner.y1 ≤ outer.y1

/-- Embedding of `union_rectangles` (censor.py lines 5-13): the enclosing
rectangle of a list of rectangles, or none when the list is empty. -/
def union_rectangles : List Rect → Option Rect
  | [] => none
  | r :: rs =>
    some (rs.foldl
      (fun a s => ⟨min a.x0 s.x0, min a.y0 s.y0, max a.x1 s.x1, max a.y1 s.y1⟩) r)

/-- Mask regions of the CPF partial policy for one source rectangle
(censor.py lines 149-170): skip entirely when the digit count is below 5;
otherwise produce the left mask covering the first 3 character-widths and
the right mask covering the last 2 character-widths, with the uniform
character width `rect.width / total_chars`. -/
def cpfMaskRegions (rect : Rect) (total_chars : ℕ) : List Rect :=
  if total_chars < 5 then []
  else
    let char_width := rect.width / (total_chars : ℚ)
    [⟨rect.x0, rect.y0, rect.x0 + 3 * char_width, rect.y1⟩,
     ⟨rect.x0 + ((total_chars : ℚ) - 2) * char_width, rect.y0, rect.x1, rect.y1⟩]

/-- Redaction rectangles the engine adds for one validated CPF match
(censor.py lines 121-170). `search` is the page's exact-substring search
`page.search_for`; `g1` … `g4` are the four captured digit groups. When the
full matched text is not found, or its first rectangle is taller than 15
points, the engine falls back to searching groups 1 and 4 independently
and redacting every rectangle found for them; otherwise it applies the
partial-mask calculator to each rectangle of the full match. -/
def cpfLocateRedactions (search : List Char → List Rect) (matched_text : List Char)
    (g1 _g2 _g3 g4 : List Char) (total_chars : ℕ) : List Rect :=
  let rects := search matched_text
  let use_groups :=
    match rects with
    | [] => true
    | union_rect :: _ => decide (union_rect.height > 15)
  if use_groups then search g1 ++ search g4
  else rects.flatMap fun rect => cpfMaskRegions rect total_chars

/-- Observable outcome of one run of `censor_partial_identifiers_in_pdf` on
one file: whether the document handle was opened, whether it was closed by
the time the routine exited, and the propagated exception if any. -/
structure RunOutcome where
  opened : Bool
  closed : Bool
  raised : Option String
deriving DecidableEq, Repr

/-- Control-flow model of `censor_partial_identifiers_in_pdf`
(censor.py lines 55-181), with the three fallible steps abstracted by
whether they succeed. The structure mirrors the source exactly: the open
sits in a try/except that re-raises (lines 55-58), so an open failure
raises before a handle exists; the page-processing loop (lines 60-174) is
wrapped in no try, so a failure there propagates with the document still
open; the save (lines 176-181) sits in a try/except with a finally that
closes the document, so both the normal path and the save-failure path
close the handle. -/
def censor_run (openOk pagesOk saveOk : Bool) : RunOutcome :=
  match (if openOk then Except.ok () else Except.error "fitz.open") with
  | .error e => { opened := false, closed := false, raised := some ("Erro ao abrir: " ++ e) }
  | .ok _ =>
    match (if pagesOk then Except.ok () else Except.error "falha ao processar página") with
    | .error e => { opened := true, closed := false, raised := some e }
    | .ok _ =>
      match (if saveOk then Except.ok () else Except.error "doc.save") with
      | .error e => { opened := true, closed := true, raised := some ("Erro ao salvar: " ++ e) }
      | .ok _ => { opened := true, closed := true, raised := none }

/-- Per-file messages the batch driver reports (censor.py lines 188-195). -/
inductive Report
  | saved (name : String)
  | failed (name : String) (msg : String)
deriving DecidableEq, Repr

/-- Embedding of the batch loop of `process_all_pdfs` (censor.py lines
188-195): each input file is paired with the outcome of running
`censor_partial_identifiers_in_pdf` on it (ok, or the exception it
raised); the loop body catches any exception and turns it into a failure
report, then moves on to the next file. -/
def process_all_pdfs : List (String × Except String Unit) → List Report
  | [] => []
  | (name, result) :: rest =>
    (match result with
     | .ok _ => Report.saved name
     | .error e => Report.failed name e) :: process_all_pdfs rest

/-- Concrete page-search function for a page on which the text "123" sits
on one line and "00" on the next, while the full CPF string is not found
as one rectangle — the two-line scenario of the spec's multi-line
fallback test. -/
def demoSearch : List Char → List Rect := fun s =>
  if s = "123".toList then [⟨0, 0, 30, 12⟩]
  else if s = "00".toList then [⟨0, 20, 20, 32⟩]
  else []

/-! Theorems. -/

/-- C1 (counterexample): the claim says the digit validator rejects the
string of 11 identical digits "11111111111"; the engine's validator
(censor.py lines 102-108) accepts it, because it checks only that the
digit string has length 11 — the repeated-digit rule and the two
check-digit formulas of the claim (embodied by `is_valid_cpf`) are not
implemented. -/
theorem cpf_validator_counterexample :
    cpfDigitAccept ("11111111111".toList) = true ∧
    is_valid_cpf ("11111111111".toList) = false := by decide

/-- C1 (amended): the digit validator accepts a CPF candidate's
concatenated digit string iff it has exactly 11 digit characters; no
repeated-digit or check-digit test is applied, so both "11144477735" and
"11111111111" are accepted. -/
theorem cpf_validator_length_only :
    (∀ matched_text : List Char,
      cpfValidate matched_text = true ↔ (digitsOnly matched_text).length = 11) ∧
    cpfValidate ("111.444.777-35".toList) = true ∧
    cpfValidate ("11111111111".toList) = true := by
  refine ⟨fun matched_text => ?_, by decide, by decide⟩
  simp [cpfValidate, cpfDigitAccept]

/-- C10: whenever the input of `mask_cpf_digits` does not carry exactly 11
digit characters, the function returns its input unchanged. -/
theorem mask_cpf_digits_non11_id (cpf_text : List Char)
    (h : (digitsOnly cpf_text).length ≠ 11) :
    mask_cpf_digits cpf_text = cpf_text := by
  unfold mask_cpf_digits
  simp [h]

/-- C10 (witness): the 9-digit string "123.456.789" is returned unchanged. -/
theorem mask_cpf_digits_non11_id_witness :
    (digitsOnly ("123.456.789".toList)).length ≠ 11 ∧
    mask_cpf_digits ("123.456.789".toList) = ("123.456.789".toList) :=
  ⟨by decide, mask_cpf_digits_non11_id _ (by decide)⟩

/-- C3 (counterexample): on the matched text "123456789-09" the engine's
`mask_cpf_digits` reformats to the fixed layout "XXX.456.789-XX", whereas
the character-by-character walk the claim describes (`maskBySpecWalk`)
yields "XXX456789-XX", keeping the hyphen in its original position; the
two disagree, so separator positions of the input are not preserved. -/
theorem mask_cpf_digits_walk_counterexample :
    mask_cpf_digits ("123456789-09".toList) = ("XXX.456.789-XX".toList) ∧
    maskBySpecWalk ("123456789-09".toList) = ("XXX456789-XX".toList) ∧
    mask_cpf_digits ("123456789-09".toList) ≠ maskBySpecWalk ("123456789-09".toList) := by
  decide

/-- C3 (amended): the masked display string is built by reformatting, not
by walking the original text: whenever the matched text contains a dot or
hyphen the output uses the fixed `###.###.###-##` layout, so the output
depends only on the digit sequence and on the mere presence of punctuation
— two matched texts with the same digits and both containing punctuation
(or both not) mask to the identical display string, regardless of where
their separators sat. -/
theorem mask_cpf_digits_canonical (s t : List Char)
    (hd : digitsOnly s = digitsOnly t)
    (hlen : (digitsOnly s).length = 11)
    (hsep : (s.contains '.' || s.contains '-') = (t.contains '.' || t.contains '-')) :
    mask_cpf_digits s = mask_cpf_digits t := by
  rw [hd] at hlen
  simp only [mask_cpf_digits, hd, hsep, hlen]
  norm_num

/-- C3 (witness): the matched texts "123456789-09" and "123.456.789-09"
have the same digits and both contain punctuation, and mask to the same
display string. -/
theorem mask_cpf_digits_canonical_witness :
    digitsOnly ("123456789-09".toList) = digitsOnly ("123.456.789-09".toList) ∧
    (digitsOnly ("123456789-09".toList)).length = 11 ∧
    mask_cpf_digits ("123456789-09".toList) = mask_cpf_digits ("123.456.789-09".toList) :=
  ⟨by decide, by decide,
    mask_cpf_digits_canonical _ _ (by decide) (by decide) (by decide)⟩

/-- C7: in the control-flow model of `censor_partial_identifiers_in_pdf`,
a failure during the page-processing loop exits the routine with the
document handle still open — only the save step sits inside a try/finally
that closes the handle — so the handle is not released on every exit path;
the normal path and the save-failure path do close it. -/
theorem censor_run_page_error_leaks_handle :
    (censor_run true false true).opened = true ∧
    (censor_run true false true).closed = false ∧
    (censor_run true false true).raised ≠ none ∧
    (censor_run true true true).closed = true ∧
    (censor_run true true false).closed = true := by decide

/-- C9: the batch loop converts every per-document failure into a failure
report and continues: the loop emits exactly one report per input file (no
exception escapes, every following file is still processed), and each file
whose processing raised an error contributes a failure report carrying its
message. -/
theorem process_all_pdfs_catches_all (files : List (String × Except String Unit)) :
    (process_all_pdfs files).length = files.length ∧
    ∀ name e, (name, Except.error e) ∈ files →
      Report.failed name e ∈ process_all_pdfs files := by
  induction files with
  | nil => exact ⟨rfl, by intro name e h; cases h⟩
  | cons hd tl ih =>
    obtain ⟨name₀, result₀⟩ := hd
    refine ⟨by simpa [process_all_pdfs] using ih.1, ?_⟩
    intro name e hmem
    rcases List.mem_cons.mp hmem with heq | htl
    · rw [Prod.mk.injEq] at heq
      obtain ⟨h1, h2⟩ := heq
      subst h1
      rw [← h2]
      simp [process_all_pdfs]
    · exact List.mem_cons_of_mem _ (ih.2 name e htl)

/-- C9 (witness): on a batch of three files whose middle one raises, the
loop reports all three files, converting the failure into a failure
report and still processing the remaining file. -/
theorem process_all_pdfs_catches_all_witness :
    (process_all_pdfs [("a.pdf", Except.ok ()), ("b.pdf", Except.error "Erro"),
      ("c.pdf", Except.ok ())]).length = 3 ∧
    Report.failed "b.pdf" "Erro" ∈ process_all_pdfs [("a.pdf", Except.ok ()),
      ("b.pdf", Except.error "Erro"), ("c.pdf", Except.ok ())] :=
  ⟨(process_all_pdfs_catches_all _).1,
    (process_all_pdfs_catches_all _).2 "b.pdf" "Erro" (by simp)⟩

/-- C2: for every source rectangle (with its bounds in normal order) and
every validated digit count, the CPF partial policy with at least 5 digits
produces exactly two mask regions — the left mask spanning the first 3
character-widths from the left edge and the right mask spanning the last 2
character-widths — both contained in the source rectangle and covering
non-overlapping spans of its width (the left mask ends no later than the
right mask begins, so the covered character ranges are disjoint); with
fewer than 5 digits no mask region is produced. -/
theorem cpfMaskRegions_geometry (rect : Rect) (total_chars : ℕ)
    (hv : rect.x0 ≤ rect.x1) :
    (total_chars < 5 → cpfMaskRegions rect total_chars = []) ∧
    (5 ≤ total_chars →
      ∃ leftMask rightMask,
        cpfMaskRegions rect total_chars = [leftMask, rightMask] ∧
        leftMask = ⟨rect.x0, rect.y0,
          rect.x0 + 3 * (rect.width / (total_chars : ℚ)), rect.y1⟩ ∧
        rightMask = ⟨rect.x0 + ((total_chars : ℚ) - 2) * (rect.width / (total_chars : ℚ)),
          rect.y0, rect.x1, rect.y1⟩ ∧
        leftMask.insideOf rect ∧ rightMask.insideOf rect ∧
        leftMask.x1 ≤ rightMask.x0) := by
  constructor
  · intro h5
    simp [cpfMaskRegions, h5]
  · intro h5
    have h5' : ¬ total_chars < 5 := not_lt.mpr h5
    have hn0 : (0 : ℚ) < (total_chars : ℚ) := by
      exact_mod_cast Nat.lt_of_lt_of_le (by norm_num) h5
    have hw : (0 : ℚ) ≤ rect.width := by
      simp only [Rect.width]
      linarith
    have hcw : (0 : ℚ) ≤ rect.width / (total_chars : ℚ) := div_nonneg hw hn0.le
    have hn5 : (5 : ℚ) ≤ (total_chars : ℚ) := by exact_mod_cast h5
    have hmul : (total_chars : ℚ) * (rect.width / (total_chars : ℚ)) = rect.width := by
      field_simp
    have h3 : 3 * (rect.width / (total_chars : ℚ)) ≤ rect.width := by
      calc 3 * (rect.width / (total_chars : ℚ))
          ≤ (total_chars : ℚ) * (rect.width / (total_chars : ℚ)) :=
            mul_le_mul_of_nonneg_right (by linarith) hcw
        _ = rect.width := hmul
    have h2 : (0 : ℚ) ≤ ((total_chars : ℚ) - 2) * (rect.width / (total_chars : ℚ)) :=
      mul_nonneg (by linarith) hcw
    have h32 : 3 * (rect.width / (total_chars : ℚ))
        ≤ ((total_chars : ℚ) - 2) * (rect.width / (total_chars : ℚ)) :=
      mul_le_mul_of_nonneg_right (by linarith) hcw
    refine ⟨⟨rect.x0, rect.y0, rect.x0 + 3 * (rect.width / (total_chars : ℚ)), rect.y1⟩,
      ⟨rect.x0 + ((total_chars : ℚ) - 2) * (rect.width / (total_chars : ℚ)),
        rect.y0, rect.x1, rect.y1⟩, ?_, rfl, rfl, ?_, ?_, ?_⟩
    · simp [cpfMaskRegions, h5']
    · refine ⟨le_refl _, ?_, le_refl _, le_refl _⟩
      show rect.x0 + 3 * (rect.width / (total_chars : ℚ)) ≤ rect.x1
      simp only [Rect.width] at h3 ⊢
      linarith
    · exact ⟨by linarith, le_refl _, le_refl _, le_refl _⟩
    · simpa using h32

/-- C2 (witness): for the rectangle from (0,0) to (11,10) and the 11
validated CPF digits, the policy yields the two regions x ∈ [0,3] and
x ∈ [9,11]; with only 3 digits it yields none. -/
theorem cpfMaskRegions_geometry_witness :
    cpfMaskRegions ⟨0, 0, 11, 10⟩ 3 = [] ∧
    cpfMaskRegions ⟨0, 0, 11, 10⟩ 11 = [⟨0, 0, 3, 10⟩, ⟨9, 0, 11, 10⟩] := by
  have hsmall := (cpfMaskRegions_geometry ⟨0, 0, 11, 10⟩ 3 (by norm_num)).1 (by norm_num)
  have hbig := (cpfMaskRegions_geometry ⟨0, 0, 11, 10⟩ 11 (by norm_num)).2 (by norm_num)
  obtain ⟨leftMask, rightMask, hout, hleft, hright, -, -, -⟩ := hbig
  refine ⟨hsmall, ?_⟩
  rw [hout, hleft, hright]
  norm_num [Rect.width]

/-- C4: whenever the page search for the full matched CPF text returns no
rectangle, or returns a first rectangle taller than the fixed 15-point
threshold, the engine's redactions for that match are exactly the
rectangles found for the first captured group followed by those found for
the fourth group: the two middle groups are never searched for, and no
union of the four groups is redacted. -/
theorem cpfLocateRedactions_fallback (search : List Char → List Rect)
    (matched_text g1 g2 g3 g4 : List Char) (total_chars : ℕ)
    (h : search matched_text = [] ∨
      ∃ r rest, search matched_text = r :: rest ∧ r.height > 15) :
    cpfLocateRedactions search matched_text g1 g2 g3 g4 total_chars
      = search g1 ++ search g4 := by
  rcases h with h | ⟨r, rest, heq, hh⟩
  · simp [cpfLocateRedactions, h]
  · simp [cpfLocateRedactions, heq, hh]

/-- C4 (witness): on the two-line page of `demoSearch`, where the full text
"123.456.789-00" is not found as one rectangle, the engine redacts exactly
the rectangle of the first group "123" and the rectangle of the fourth
group "00". -/
theorem cpfLocateRedactions_fallback_witness :
    cpfLocateRedactions demoSearch ("123.456.789-00".toList) ("123".toList) ("456".toList)
        ("789".toList) ("00".toList) 11
      = demoSearch ("123".toList) ++ demoSearch ("00".toList) ∧
    demoSearch ("123".toList) ++ demoSearch ("00".toList)
      = [⟨0, 0, 30, 12⟩, ⟨0, 20, 20, 32⟩] :=
  ⟨cpfLocateRedactions_fallback demoSearch _ _ _ _ _ 11 (Or.inl (by decide)), by decide⟩

/-- C6: the context window of a match is the 30 characters of the
flattened page text immediately preceding the match start, lower-cased
(the definition of `windowOf`), and a candidate whose window contains any
of the ignore keywords "r$", "cnpj", "id", "c/c", "matrícula:" is always
rejected by the filter, whatever its label and matched text. -/
theorem contextWindowRejects (label : DocLabel) (text : List Char) (start stop : ℕ)
    (matched_text : List Char)
    (h : ∃ substr ∈ ignore_contexts, containsSub (windowOf text start) substr = true) :
    candidatePassesFilters label text start stop matched_text = false := by
  have hany : ignore_contexts.any (fun substr => containsSub (windowOf text start) substr)
      = true := List.any_eq_true.mpr h
  simp [candidatePassesFilters, hany]

/-- C6 (witness): a CPF candidate preceded by "R$ " within the 30
preceding characters is rejected. -/
theorem contextWindowRejects_witness :
    (∃ substr ∈ ignore_contexts,
      containsSub (windowOf ("Valor: R$ 111.444.777-35".toList) 10) substr = true) ∧
    candidatePassesFilters DocLabel.CPF ("Valor: R$ 111.444.777-35".toList) 10 24
      ("111.444.777-35".toList) = false :=
  ⟨⟨"r$".toList, by decide, by decide⟩,
    contextWindowRejects DocLabel.CPF _ 10 24 _ ⟨"r$".toList, by decide, by decide⟩⟩

/-- C5 (counterexample): the claim's trigger makes the two digits after
the optional hyphen optional, so the trailing text "/1234" should already
cause rejection; the engine's pattern `/\d{4}-?\d{2}` requires two further
digits, and on the page text "111.444.777-35/1234" the CPF candidate
passes the filter even though the claim's condition holds. -/
theorem cnpjTailClaim_counterexample :
    claimCnpjTail (stripSpaces ((("111.444.777-35/1234".toList).drop 14).take 20)) = true ∧
    candidatePassesFilters DocLabel.CPF ("111.444.777-35/1234".toList) 0 14
      ("111.444.777-35".toList) = true := by decide

/-- C5 (amended): for a candidate that survives the keyword filter and the
financial filter, rejection happens exactly when the label is CPF or RG,
the 20 characters after the match (whitespace stripped) begin with a
slash, 4 digits, an optional hyphen and 2 further mandatory digits, and it
is not the case that the label is CPF with the token "cpf" in the
preceding window; consequently a CNPJ-shaped string, whose tail always
carries the final digit pair, is never redacted. -/
theorem cnpjTailRejection (label : DocLabel) (text : List Char) (start stop : ℕ)
    (matched_text : List Char)
    (hkw : ignore_contexts.any (fun substr => containsSub (windowOf text start) substr)
      = false)
    (hfin : ((matched_text.contains ',' || matched_text.contains '.')
      && decide ((digitsOnly matched_text).length < 10)) = false) :
    candidatePassesFilters label text start stop matched_text = false ↔
      ((label = DocLabel.CPF ∨ label = DocLabel.RG) ∧
        cnpjTailMatch (stripSpaces ((text.drop stop).take 20)) = true ∧
        ¬(label = DocLabel.CPF ∧
          containsSub (windowOf text start) ("cpf".toList) = true)) := by
  cases label <;>
    cases htail : cnpjTailMatch (stripSpaces ((text.drop stop).take 20)) <;>
    cases hcpf : containsSub (windowOf text start) ("cpf".toList) <;>
    simp_all [candidatePassesFilters] <;>
    tauto

/-- C5 (amended, witness): the RG-shaped prefix "12345678" of the
CNPJ-shaped page text "12345678/0001-95" is rejected by the filter. -/
theorem cnpjTailRejection_witness :
    candidatePassesFilters DocLabel.RG ("12345678/0001-95".toList) 0 8
      ("12345678".toList) = false :=
  (cnpjTailRejection DocLabel.RG _ 0 8 _ (by decide) (by decide)).mpr
    ⟨Or.inr rfl, by decide, by decide⟩

/-- Helper: filtering the dotted display layout with a predicate that keeps
every character of the censored digit string and drops the dot and the
hyphen recovers the censored digit string exactly. -/
theorem filter_display_keeps_digits (q : Char → Bool) (cen : List Char)
    (hq : ∀ c ∈ cen, q c = true) (hdot : q '.' = false) (hhyp : q '-' = false)
    (hlen : cen.length = 11) :
    (cen.take 3 ++ '.' :: (cen.drop 3).take 3 ++ '.' :: (cen.drop 6).take 3
      ++ '-' :: (cen.drop 9).take 2).filter q = cen := by
  have hseg : ∀ k j : ℕ, ((cen.drop k).take j).filter q = (cen.drop k).take j :=
    fun k j => List.filter_eq_self.mpr
      (fun c hc => hq c (List.mem_of_mem_drop (List.mem_of_mem_take hc)))
  have htk : (cen.take 3).filter q = cen.take 3 :=
    List.filter_eq_self.mpr (fun c hc => hq c (List.mem_of_mem_take hc))
  have h9 : (cen.drop 9).take 2 = cen.drop 9 :=
    List.take_of_length_le (by simp [hlen])
  simp only [List.filter_append, List.filter_cons, hdot, hhyp, Bool.false_eq_true,
    if_false, htk, hseg, List.append_assoc]
  rw [h9, show cen.drop 9 = (cen.drop 6).drop 3 by rw [List.drop_drop],
    List.take_append_drop,
    show cen.drop 6 = (cen.drop 3).drop 3 by rw [List.drop_drop],
    List.take_append_drop, List.take_append_drop]

/-- C8: for every matched text carrying exactly 11 digits, whatever its
separator style, the digit-or-X skeleton of the masked output is X at the
first 3 and last 2 logical digit positions and the original middle 6
digits in between — so "12345678909" and "123.456.789-09" mask the same
logical digit positions. -/
theorem mask_cpf_digits_positions (cpf_text : List Char)
    (h : (digitsOnly cpf_text).length = 11) :
    (mask_cpf_digits cpf_text).filter (fun c => c.isDigit || c == 'X')
      = 'X' :: 'X' :: 'X' :: ((digitsOnly cpf_text).drop 3).take 6 ++ ['X', 'X'] := by
  have hmid : ∀ c ∈ ((digitsOnly cpf_text).drop 3).take 6, c.isDigit = true :=
    fun c hc => List.of_mem_filter (List.mem_of_mem_drop (List.mem_of_mem_take hc))
  have hq : ∀ c ∈ 'X' :: 'X' :: 'X' :: ((digitsOnly cpf_text).drop 3).take 6 ++ ['X', 'X'],
      ((fun c => c.isDigit || c == 'X') c) = true := by
    intro c hc
    have hc' : c = 'X' ∨ c ∈ ((digitsOnly cpf_text).drop 3).take 6 := by
      simp only [List.mem_cons, List.mem_append, List.mem_singleton,
        List.not_mem_nil, or_false] at hc
      tauto
    rcases hc' with rfl | hmem
    · rfl
    · simp [hmid c hmem]
  have h6 : (((digitsOnly cpf_text).drop 3).take 6).length = 6 := by
    rw [List.length_take, List.length_drop, h]
    decide
  have hlen2 : ('X' :: 'X' :: 'X' :: ((digitsOnly cpf_text).drop 3).take 6
      ++ ['X', 'X']).length = 11 := by
    simp [h6]
  by_cases hsep : (cpf_text.contains '.' || cpf_text.contains '-') = true
  · rw [show mask_cpf_digits cpf_text
        = (('X' :: 'X' :: 'X' :: ((digitsOnly cpf_text).drop 3).take 6 ++ ['X', 'X']).take 3
          ++ '.' :: (('X' :: 'X' :: 'X' :: ((digitsOnly cpf_text).drop 3).take 6
              ++ ['X', 'X']).drop 3).take 3
          ++ '.' :: (('X' :: 'X' :: 'X' :: ((digitsOnly cpf_text).drop 3).take 6
              ++ ['X', 'X']).drop 6).take 3
          ++ '-' :: (('X' :: 'X' :: 'X' :: ((digitsOnly cpf_text).drop 3).take 6
              ++ ['X', 'X']).drop 9).take 2)
      by simp only [mask_cpf_digits]; rw [if_neg (not_not_intro h), if_pos hsep]]
    exact filter_display_keeps_digits _ _ hq (by decide) (by decide) hlen2
  · rw [show mask_cpf_digits cpf_text
        = 'X' :: 'X' :: 'X' :: ((digitsOnly cpf_text).drop 3).take 6 ++ ['X', 'X']
      by simp only [mask_cpf_digits]; rw [if_neg (not_not_intro h), if_neg hsep]]
    exact List.filter_eq_self.mpr hq

/-- C8 (witness): both separator styles of the same CPF digits produce the
skeleton XXX456789XX, masking the same logical digit positions. -/
theorem mask_cpf_digits_positions_witness :
    (mask_cpf_digits ("123.456.789-09".toList)).filter (fun c => c.isDigit || c == 'X')
      = 'X' :: 'X' :: 'X' :: ((digitsOnly ("123.456.789-09".toList)).drop 3).take 6
        ++ ['X', 'X'] ∧
    (mask_cpf_digits ("12345678909".toList)).filter (fun c => c.isDigit || c == 'X')
      = (mask_cpf_digits ("123.456.789-09".toList)).filter (fun c => c.isDigit || c == 'X') :=
  ⟨mask_cpf_digits_positions _ (by decide), by decide⟩

end CpfCensoring
